import Mathlib

/-!
# gert: `src/merge.c`

A shallow embedding of the three entry points of `src/merge.c`
(`R_git_merge_fast_forward`, `R_git_merge_base`, `R_git_merge_analysis`) and of
the helper `analysis_to_str`.

The libgit2 functions the file calls are collaborators: they are the fields of
`Libgit2`, and every general statement below quantifies over them.  Each entry
point threads an explicit state: the repository (reference store and working
tree), the handles handed out by libgit2 and not yet freed, and the trace of
calls, frees and console messages.  An R error raised by `bail_if` stops the run
with `Except.error`; the state at that moment is kept, so that what was, or was
not, released on an error path can be read off.
-/

namespace Gert

/-! ## Data model -/

/-- A libgit2 object identifier (`git_oid`), as the number its raw bytes spell. -/
structure git_oid where
  raw : Nat
  deriving DecidableEq, Repr

/-- A `git_object *`: the address of an object handle. -/
structure git_object where
  addr : Nat
  deriving DecidableEq, Repr

/-- A `git_reference *`: the address of a reference handle. -/
structure git_reference where
  addr : Nat
  deriving DecidableEq, Repr

/-- A `git_annotated_commit *`: the address of an annotated-commit handle. -/
structure git_annotated_commit where
  addr : Nat
  deriving DecidableEq, Repr

/-- The R external pointer that wraps the repository (`SEXP ptr`). -/
abbrev SEXP := Nat

/-- `git_merge_analysis_t` is a C enum used as a set of bit flags. -/
abbrev git_merge_analysis_t := Nat

/-- `git_merge_preference_t`. -/
abbrev git_merge_preference_t := Nat

/-- Value of the libgit2 enumerator (`git2/merge.h`): `0`. -/
def GIT_MERGE_ANALYSIS_NONE : git_merge_analysis_t := 0

/-- Value of the libgit2 enumerator (`git2/merge.h`): `1 << 0`. -/
def GIT_MERGE_ANALYSIS_NORMAL : git_merge_analysis_t := 1

/-- Value of the libgit2 enumerator (`git2/merge.h`): `1 << 1`. -/
def GIT_MERGE_ANALYSIS_UP_TO_DATE : git_merge_analysis_t := 2

/-- Value of the libgit2 enumerator (`git2/merge.h`): `1 << 2`. -/
def GIT_MERGE_ANALYSIS_FASTFORWARD : git_merge_analysis_t := 4

/-- Value of the libgit2 enumerator (`git2/merge.h`): `1 << 3`. -/
def GIT_MERGE_ANALYSIS_UNBORN : git_merge_analysis_t := 8

/-- Value of the libgit2 error code "object not found" (`git2/errors.h`). -/
def GIT_ENOTFOUND : Int := -3

/-- Value of the libgit2 checkout strategy flag (`git2/checkout.h`): `1u << 0`. -/
def GIT_CHECKOUT_SAFE : Nat := 1

/-- The one field of `git_checkout_options` that `merge.c` sets. -/
structure git_checkout_options where
  checkout_strategy : Nat
  deriving DecidableEq, Repr

/-- The initialiser `GIT_CHECKOUT_OPTIONS_INIT`: no strategy chosen. -/
def GIT_CHECKOUT_OPTIONS_INIT : git_checkout_options := { checkout_strategy := 0 }

/-- What the repository holds on disk: the reference store and the working tree. -/
structure git_repository (Refs Tree : Type) where
  refs : Refs
  worktree : Tree
  deriving DecidableEq, Repr

/-- A handle handed out by libgit2, which the caller has to free. -/
inductive Handle where
  | reference (r : git_reference)
  | object (o : git_object)
  | annotated_commit (c : git_annotated_commit)
  deriving DecidableEq, Repr

/-- What a run does that can be observed from outside, in order. -/
inductive Event where
  /-- A libgit2 call that returns a status code, with that code. -/
  | call (fn : String) (rc : Int)
  /-- A `git_*_free` call on a handle. -/
  | free (h : Handle)
  /-- A message written to the R console with `REprintf`. -/
  | REprintf (msg : String)
  deriving DecidableEq, Repr

/-- The R error raised by `bail_if`: the label of the failing call and its status. -/
structure RError where
  what : String
  code : Int
  deriving DecidableEq, Repr

/-- State threaded through an entry point. -/
structure State (Refs Tree : Type) where
  repo : git_repository Refs Tree
  live : List Handle
  trace : List Event
  deriving DecidableEq, Repr

/-- The libgit2 functions `merge.c` calls.  A function with an out-parameter
returns its status code together with the value left in the out-parameter; the
two functions that write to the repository return what they wrote
(`git_checkout_tree` the working tree, `git_reference_set_target` the reference
store). -/
structure Libgit2 (Refs Tree : Type) where
  git_repository_head : git_repository Refs Tree → Int × git_reference
  git_revparse_single : git_repository Refs Tree → String → Int × git_object
  git_object_id : git_object → git_oid
  git_annotated_commit_lookup : git_repository Refs Tree → git_oid → Int × git_annotated_commit
  git_merge_analysis : git_repository Refs Tree → List git_annotated_commit →
    Int × git_merge_analysis_t × git_merge_preference_t
  git_checkout_tree : git_repository Refs Tree → git_object → git_checkout_options → Int × Tree
  git_reference_set_target : git_repository Refs Tree → git_reference → git_oid →
    Int × git_reference × Refs
  git_merge_base : git_repository Refs Tree → git_oid → git_oid → Int × git_oid
  git_oid_tostr_s : git_oid → String
  git_reference_lookup : git_repository Refs Tree → String → Int × git_reference
  git_annotated_commit_from_revspec : git_repository Refs Tree → String →
    Int × git_annotated_commit
  git_merge_analysis_for_ref : git_repository Refs Tree → git_reference →
    List git_annotated_commit → Int × git_merge_analysis_t × git_merge_preference_t

/-! ## The monad of a run -/

/-- A run: from a state to a value or an R error, and the state reached. -/
def M (Refs Tree : Type) (α : Type) : Type :=
  State Refs Tree → Except RError α × State Refs Tree

/-- Return without touching the state. -/
def M.pure {Refs Tree α : Type} (a : α) : M Refs Tree α := fun s => (Except.ok a, s)

/-- Sequencing: an R error ends the run where it was raised. -/
def M.bind {Refs Tree α β : Type} (m : M Refs Tree α) (f : α → M Refs Tree β) : M Refs Tree β :=
  fun s =>
    match m s with
    | (Except.ok a, s1) => f a s1
    | (Except.error e, s1) => (Except.error e, s1)

instance {Refs Tree : Type} : Monad (M Refs Tree) where
  pure := M.pure
  bind := M.bind

section Primitives

variable {Refs Tree : Type}

/-- Append an event to the trace. -/
def record (e : Event) : M Refs Tree Unit :=
  fun s => (Except.ok (), { s with trace := s.trace ++ [e] })

/-- A handle handed out by a libgit2 call that returned `rc`: live when `rc = 0`. -/
def acquire (fn : String) (rc : Int) (h : Handle) : M Refs Tree Unit :=
  fun s => (Except.ok (),
    { s with live := if rc = 0 then h :: s.live else s.live,
             trace := s.trace ++ [Event.call fn rc] })

/-- A `git_*_free` call: the handle is no longer live. -/
def release (h : Handle) : M Refs Tree Unit :=
  fun s => (Except.ok (), { s with live := s.live.erase h, trace := s.trace ++ [Event.free h] })

/-- Modelled from the spec: `bail_if` is declared in `utils.h`, which is not among
the sources.  "Every store/adapter failure aborts the current operation": a
non-zero status raises an R error, which leaves the calling C function at once.
It is passed the status and a label only, so it frees none of the caller's
handles. -/
def bail_if (err : Int) (what : String) : M Refs Tree Unit :=
  fun s => if err ≠ 0 then (Except.error { what := what, code := err }, s) else (Except.ok (), s)

/-- Console message. -/
def REprintf (msg : String) : M Refs Tree Unit := record (Event.REprintf msg)

/-! The calls into libgit2.  Each one runs the collaborator on the repository as it
is at that moment and records the call with its status.  A call that hands out a
handle makes it live when the status is `0`; the value returned is the pair of
the status and the content of the out-parameter. -/

def git_repository_head (L : Libgit2 Refs Tree) : M Refs Tree (Int × git_reference) :=
  fun s =>
    let r := L.git_repository_head s.repo
    M.bind (acquire "git_repository_head" r.1 (Handle.reference r.2)) (fun _ => M.pure r) s

def git_revparse_single (L : Libgit2 Refs Tree) (spec : String) : M Refs Tree (Int × git_object) :=
  fun s =>
    let r := L.git_revparse_single s.repo spec
    M.bind (acquire "git_revparse_single" r.1 (Handle.object r.2)) (fun _ => M.pure r) s

def git_annotated_commit_lookup (L : Libgit2 Refs Tree) (id : git_oid) :
    M Refs Tree (Int × git_annotated_commit) :=
  fun s =>
    let r := L.git_annotated_commit_lookup s.repo id
    M.bind (acquire "git_annotated_commit_lookup" r.1 (Handle.annotated_commit r.2))
      (fun _ => M.pure r) s

def git_annotated_commit_from_revspec (L : Libgit2 Refs Tree) (spec : String) :
    M Refs Tree (Int × git_annotated_commit) :=
  fun s =>
    let r := L.git_annotated_commit_from_revspec s.repo spec
    M.bind (acquire "git_annotated_commit_from_revspec" r.1 (Handle.annotated_commit r.2))
      (fun _ => M.pure r) s

def git_reference_lookup (L : Libgit2 Refs Tree) (name : String) :
    M Refs Tree (Int × git_reference) :=
  fun s =>
    let r := L.git_reference_lookup s.repo name
    M.bind (acquire "git_reference_lookup" r.1 (Handle.reference r.2)) (fun _ => M.pure r) s

def git_merge_analysis (L : Libgit2 Refs Tree) (their_heads : List git_annotated_commit) :
    M Refs Tree (Int × git_merge_analysis_t × git_merge_preference_t) :=
  fun s =>
    let r := L.git_merge_analysis s.repo their_heads
    M.bind (record (Event.call "git_merge_analysis" r.1)) (fun _ => M.pure r) s

def git_merge_analysis_for_ref (L : Libgit2 Refs Tree) (our_ref : git_reference)
    (their_heads : List git_annotated_commit) :
    M Refs Tree (Int × git_merge_analysis_t × git_merge_preference_t) :=
  fun s =>
    let r := L.git_merge_analysis_for_ref s.repo our_ref their_heads
    M.bind (record (Event.call "git_merge_analysis_for_ref" r.1)) (fun _ => M.pure r) s

def git_merge_base (L : Libgit2 Refs Tree) (one two : git_oid) : M Refs Tree (Int × git_oid) :=
  fun s =>
    let r := L.git_merge_base s.repo one two
    M.bind (record (Event.call "git_merge_base" r.1)) (fun _ => M.pure r) s

/-- The checkout writes the working tree (whatever its status) and nothing else. -/
def git_checkout_tree (L : Libgit2 Refs Tree) (treeish : git_object)
    (opts : git_checkout_options) : M Refs Tree Int :=
  fun s =>
    let r := L.git_checkout_tree s.repo treeish opts
    (Except.ok r.1,
      { s with repo := { s.repo with worktree := r.2 },
               trace := s.trace ++ [Event.call "git_checkout_tree" r.1] })

/-- The reference update writes the reference store and hands out the handle of
the updated reference. -/
def git_reference_set_target (L : Libgit2 Refs Tree) (ref : git_reference) (id : git_oid) :
    M Refs Tree (Int × git_reference) :=
  fun s =>
    let r := L.git_reference_set_target s.repo ref id
    (Except.ok (r.1, r.2.1),
      { s with repo := { s.repo with refs := r.2.2 },
               live := if r.1 = 0 then Handle.reference r.2.1 :: s.live else s.live,
               trace := s.trace ++ [Event.call "git_reference_set_target" r.1] })

def git_reference_free (r : git_reference) : M Refs Tree Unit := release (Handle.reference r)

def git_object_free (o : git_object) : M Refs Tree Unit := release (Handle.object o)

def git_annotated_commit_free (c : git_annotated_commit) : M Refs Tree Unit :=
  release (Handle.annotated_commit c)

end Primitives

/-! ## `merge.c` -/

section Source

variable {Refs Tree : Type}

/-- `R_git_merge_fast_forward(ptr, ref)`.  `ptr` is a valid handle, so that
`get_git_repository(ptr)` is the repository held in the state, and `ref` is the
string `CHAR(STRING_ELT(ref, 0))`. -/
def R_git_merge_fast_forward (L : Libgit2 Refs Tree) (ptr : SEXP) (ref : String) :
    M Refs Tree SEXP := do
  let opts : git_checkout_options :=
    { GIT_CHECKOUT_OPTIONS_INIT with checkout_strategy := GIT_CHECKOUT_SAFE }
  let head ← git_repository_head L
  bail_if head.1 "git_repository_head"
  let revision ← git_revparse_single L ref
  bail_if revision.1 "git_revparse_single"
  let commit ← git_annotated_commit_lookup L (L.git_object_id revision.2)
  bail_if commit.1 "git_annotated_commit_lookup"
  let analysis ← git_merge_analysis L [commit.2]
  bail_if analysis.1 "git_merge_analysis"
  git_annotated_commit_free commit.2
  if analysis.2.1 &&& GIT_MERGE_ANALYSIS_UP_TO_DATE ≠ 0 then
    REprintf "Already up-to-date\n"
  else if analysis.2.1 &&& GIT_MERGE_ANALYSIS_FASTFORWARD ≠ 0
      ∨ analysis.2.1 &&& GIT_MERGE_ANALYSIS_UNBORN ≠ 0 then
    REprintf "Performing fast forward\n"
    let rc ← git_checkout_tree L revision.2 opts
    bail_if rc "git_checkout_tree"
    let target ← git_reference_set_target L head.2 (L.git_object_id revision.2)
    bail_if target.1 "git_reference_set_target"
    git_reference_free target.2
  else
    REprintf "Fast forward not possible\n"
  git_reference_free head.2
  git_object_free revision.2
  return ptr

/-- `R_git_merge_base(ptr, ref1, ref2)`.  `ptr` is a valid handle of the repository
held in the state, `ref1` and `ref2` are the strings `CHAR(STRING_ELT(_, 0))`, and
the result is the string wrapped by `Rf_mkString`. -/
def R_git_merge_base (L : Libgit2 Refs Tree) (_ptr : SEXP) (ref1 ref2 : String) :
    M Refs Tree String := do
  let t1 ← git_revparse_single L ref1
  bail_if t1.1 "git_revparse_single"
  let t2 ← git_revparse_single L ref2
  bail_if t2.1 "git_revparse_single"
  let base ← git_merge_base L (L.git_object_id t1.2) (L.git_object_id t2.2)
  bail_if base.1 "git_merge_base"
  git_object_free t1.2
  git_object_free t2.2
  return L.git_oid_tostr_s base.2

/-- `analysis_to_str`: a `switch` on the whole value, with `none` after the switch. -/
def analysis_to_str (x : git_merge_analysis_t) : String :=
  if x = GIT_MERGE_ANALYSIS_NONE then "none"
  else if x = GIT_MERGE_ANALYSIS_NORMAL then "normal"
  else if x = GIT_MERGE_ANALYSIS_UP_TO_DATE then "up_to_date"
  else if x = GIT_MERGE_ANALYSIS_FASTFORWARD then "fastforward"
  else if x = GIT_MERGE_ANALYSIS_UNBORN then "unborn"
  else "none"

/-- The first loop of `R_git_merge_analysis`: `commits[i]` is looked up from
`refs[i]`, in order, and the first failure bails out.  `commits` holds the
entries filled so far. -/
def lookup_commits (L : Libgit2 Refs Tree) :
    List String → List git_annotated_commit → M Refs Tree (List git_annotated_commit)
  | [], commits => pure commits
  | r :: refs, commits => do
    let c ← git_annotated_commit_from_revspec L r
    bail_if c.1 "git_annotated_commit_from_revspec"
    lookup_commits L refs (commits ++ [c.2])

/-- The second loop of `R_git_merge_analysis`: `commits[i]` is freed, in order. -/
def free_commits : List git_annotated_commit → M Refs Tree Unit
  | [] => pure ()
  | c :: commits => do
    git_annotated_commit_free c
    free_commits commits

/-- `R_git_merge_analysis(ptr, refs, target)`.  `ptr` is a valid handle of the
repository held in the state, `refs` is the character vector (`n` is its length),
`target` is the string `CHAR(STRING_ELT(target, 0))`, and the result is the string
wrapped by `Rf_mkString`. -/
def R_git_merge_analysis (L : Libgit2 Refs Tree) (_ptr : SEXP) (refs : List String)
    (target : String) : M Refs Tree String := do
  let t ← git_reference_lookup L target
  bail_if t.1 "git_reference_lookup"
  let commits ← lookup_commits L refs []
  let res ← git_merge_analysis_for_ref L t.2 commits
  free_commits commits
  bail_if res.1 "git_merge_analysis"
  return analysis_to_str res.2.1

end Source

/-! ## A small repository for the worked examples -/

/-- Canonical form of an identifier: forty lower-case hexadecimal digits. -/
def hex40 (id : git_oid) : String :=
  let ds := Nat.toDigits 16 id.raw
  String.mk (List.replicate (40 - ds.length) '0' ++ ds)

/-- A repository with the branch `refs/heads/main` checked out and one other
revision, `feature`.  The reference store is the identifier `main` points at, the
working tree the identifier of the commit checked out.  `analysis` is what
the analyzer answers for a single candidate and `checkout_rc` the status of a
checkout; the analyzer rejects every candidate list that does not have exactly one
entry. -/
def demo (analysis : git_merge_analysis_t) (checkout_rc : Int) : Libgit2 git_oid git_oid where
  git_repository_head := fun _ => (0, { addr := 1 })
  git_revparse_single := fun _ spec =>
    if spec = "feature" then (0, { addr := 2 })
    else if spec = "main" then (0, { addr := 3 })
    else (GIT_ENOTFOUND, { addr := 0 })
  git_object_id := fun o => { raw := o.addr * 16 }
  git_annotated_commit_lookup := fun _ id => (0, { addr := id.raw + 1 })
  git_merge_analysis := fun _ their_heads =>
    if their_heads.length = 1 then (0, analysis, 0) else (-1, 0, 0)
  git_checkout_tree := fun repo treeish _ =>
    if checkout_rc = 0 then (0, { raw := treeish.addr * 16 }) else (checkout_rc, repo.worktree)
  git_reference_set_target := fun _ _ id => (0, { addr := 4 }, id)
  git_merge_base := fun _ one two =>
    if one = two then (0, one) else (GIT_ENOTFOUND, { raw := 0 })
  git_oid_tostr_s := hex40
  git_reference_lookup := fun _ name =>
    if name = "refs/heads/main" then (0, { addr := 5 }) else (GIT_ENOTFOUND, { addr := 0 })
  git_annotated_commit_from_revspec := fun _ spec =>
    if spec = "feature" then (0, { addr := 6 })
    else if spec = "main" then (0, { addr := 7 })
    else (GIT_ENOTFOUND, { addr := 0 })
  git_merge_analysis_for_ref := fun _ _ their_heads =>
    if their_heads.length = 1 then (0, analysis, 0) else (-1, 0, 0)

/-- The same repository with an analyzer that does not look at the number of
candidates. -/
def demo_any_count (analysis : git_merge_analysis_t) : Libgit2 git_oid git_oid :=
  { demo analysis 0 with
    git_merge_analysis_for_ref := fun _ _ _ => (0, analysis, 0) }

/-- The state before a call: `main` and the working tree at the commit `0x30`, no
handle live, nothing traced. -/
def s0 : State git_oid git_oid :=
  { repo := { refs := { raw := 48 }, worktree := { raw := 48 } }, live := [], trace := [] }

/-! ## Running the model -/

section Run

variable {Refs Tree : Type}

theorem M.bind_eq {α β : Type} (m : M Refs Tree α) (f : α → M Refs Tree β) :
    (m >>= f) = M.bind m f := rfl

/-- Freeing, one by one, handles that are all at the front of the live list
(in any order) leaves the rest of the list. -/
theorem foldl_erase_front (cs : List git_annotated_commit) :
    ∀ (p l : List Handle), p.Perm (cs.map Handle.annotated_commit) →
      cs.foldl (fun acc c => acc.erase (Handle.annotated_commit c)) (p ++ l) = l := by
  induction cs with
  | nil =>
    intro p l hp
    have : p = [] := by simpa using hp
    simp [this]
  | cons c cs ih =>
    intro p l hp
    have hmem : Handle.annotated_commit c ∈ p := by
      apply hp.symm.subset
      simp
    have hperm : (p.erase (Handle.annotated_commit c)).Perm (cs.map Handle.annotated_commit) := by
      have := hp.erase (Handle.annotated_commit c)
      simpa using this
    simp only [List.foldl_cons, List.erase_append_left _ hmem]
    exact ih _ l hperm

/-- The first loop, when every specifier resolves. -/
theorem lookup_commits_run (L : Libgit2 Refs Tree) (refs : List String) :
    ∀ (commits : List git_annotated_commit) (s : State Refs Tree),
      (∀ r ∈ refs, (L.git_annotated_commit_from_revspec s.repo r).1 = 0) →
      lookup_commits L refs commits s =
        (Except.ok (commits ++ refs.map fun r => (L.git_annotated_commit_from_revspec s.repo r).2),
          { repo := s.repo,
            live := (refs.map fun r =>
                Handle.annotated_commit (L.git_annotated_commit_from_revspec s.repo r).2).reverse
              ++ s.live,
            trace := s.trace ++
              refs.map fun _ => Event.call "git_annotated_commit_from_revspec" 0 }) := by
  induction refs with
  | nil => intro commits s _; simp [lookup_commits, pure, M.pure]
  | cons r refs ih =>
    intro commits s h
    have hr : (L.git_annotated_commit_from_revspec s.repo r).1 = 0 := h r (by simp)
    have hrest : ∀ r ∈ refs, (L.git_annotated_commit_from_revspec s.repo r).1 = 0 :=
      fun r hmem => h r (by simp [hmem])
    simp [lookup_commits, M.bind_eq, M.bind, M.pure, git_annotated_commit_from_revspec, acquire,
      bail_if, hr]
    rw [ih]
    · simp
    · simpa using hrest

/-- The second loop. -/
theorem free_commits_run (commits : List git_annotated_commit) :
    ∀ s : State Refs Tree,
      free_commits commits s =
        (Except.ok (),
          { repo := s.repo,
            live := commits.foldl (fun acc c => acc.erase (Handle.annotated_commit c)) s.live,
            trace := s.trace ++ commits.map fun c => Event.free (Handle.annotated_commit c) }) := by
  induction commits with
  | nil => intro s; simp [free_commits, pure, M.pure]
  | cons c commits ih =>
    intro s
    simp [free_commits, M.bind_eq, M.bind, git_annotated_commit_free, release, ih]

end Run

/-! ## `analysis_to_str` -/

/-- C1: `analysis_to_str` is defined on every analysis value and its result is one of
the five tokens; each of the five single-flag values gets its own token, and the
five tokens are pairwise distinct. -/
theorem analysis_to_str_token :
    (∀ x : git_merge_analysis_t,
      analysis_to_str x ∈ ["none", "normal", "up_to_date", "fastforward", "unborn"]) ∧
    analysis_to_str GIT_MERGE_ANALYSIS_NONE = "none" ∧
    analysis_to_str GIT_MERGE_ANALYSIS_NORMAL = "normal" ∧
    analysis_to_str GIT_MERGE_ANALYSIS_UP_TO_DATE = "up_to_date" ∧
    analysis_to_str GIT_MERGE_ANALYSIS_FASTFORWARD = "fastforward" ∧
    analysis_to_str GIT_MERGE_ANALYSIS_UNBORN = "unborn" ∧
    List.Pairwise (fun a b => a ≠ b)
      [analysis_to_str GIT_MERGE_ANALYSIS_NONE, analysis_to_str GIT_MERGE_ANALYSIS_NORMAL,
       analysis_to_str GIT_MERGE_ANALYSIS_UP_TO_DATE,
       analysis_to_str GIT_MERGE_ANALYSIS_FASTFORWARD,
       analysis_to_str GIT_MERGE_ANALYSIS_UNBORN] := by
  refine ⟨?_, by decide, by decide, by decide, by decide, by decide, by decide⟩
  intro x
  unfold analysis_to_str
  split_ifs <;> simp

/-- C2: on the value with both the fastforward and the unborn flag set (and no other),
`analysis_to_str` matches no `case` of its switch and returns `"none"`, not
`"fastforward"`; so does `R_git_merge_analysis` when the analyzer reports that
value. -/
theorem analysis_to_str_fastforward_unborn :
    analysis_to_str (GIT_MERGE_ANALYSIS_FASTFORWARD ||| GIT_MERGE_ANALYSIS_UNBORN) = "none" ∧
    analysis_to_str (GIT_MERGE_ANALYSIS_FASTFORWARD ||| GIT_MERGE_ANALYSIS_UNBORN)
      ≠ "fastforward" ∧
    (R_git_merge_analysis
        (demo (GIT_MERGE_ANALYSIS_FASTFORWARD ||| GIT_MERGE_ANALYSIS_UNBORN) 0) 7
        ["feature"] "refs/heads/main" s0).1 = Except.ok "none" :=
  ⟨by decide, by decide, rfl⟩

/-! ## `R_git_merge_fast_forward` -/

section FastForward

variable {Refs Tree : Type}

/-- C3: when head, the revision, its annotated commit and the analysis succeed and the
analysis has the fastforward or the unborn flag but not the up-to-date flag,
the run checks `revision` out with the safe strategy and, the checkout having
succeeded, then asks for head to be pointed at the identifier of `revision`.
When the update succeeds as well, the reference store is the one that update
wrote, the working tree the one that checkout wrote, every handle is released
and `ptr` is returned. -/
theorem fast_forward_advances (L : Libgit2 Refs Tree) (ptr : SEXP) (ref : String)
    (s : State Refs Tree) (head target : git_reference) (revision : git_object)
    (commit : git_annotated_commit) (analysis : git_merge_analysis_t)
    (preference : git_merge_preference_t) (tree : Tree) (refs : Refs) (rc : Int)
    (hhead : L.git_repository_head s.repo = (0, head))
    (hrev : L.git_revparse_single s.repo ref = (0, revision))
    (hcommit : L.git_annotated_commit_lookup s.repo (L.git_object_id revision) = (0, commit))
    (hana : L.git_merge_analysis s.repo [commit] = (0, analysis, preference))
    (hff : analysis &&& GIT_MERGE_ANALYSIS_FASTFORWARD ≠ 0
      ∨ analysis &&& GIT_MERGE_ANALYSIS_UNBORN ≠ 0)
    (hup : analysis &&& GIT_MERGE_ANALYSIS_UP_TO_DATE = 0)
    (hco : L.git_checkout_tree s.repo revision { checkout_strategy := GIT_CHECKOUT_SAFE }
      = (0, tree))
    (hset : L.git_reference_set_target { refs := s.repo.refs, worktree := tree } head
      (L.git_object_id revision) = (rc, target, refs)) :
    R_git_merge_fast_forward L ptr ref s =
      (if rc = 0 then Except.ok ptr
        else Except.error { what := "git_reference_set_target", code := rc },
       { repo := { refs := refs, worktree := tree },
         live := if rc = 0 then s.live
           else Handle.object revision :: Handle.reference head :: s.live,
         trace := s.trace ++
           [Event.call "git_repository_head" 0, Event.call "git_revparse_single" 0,
            Event.call "git_annotated_commit_lookup" 0, Event.call "git_merge_analysis" 0,
            Event.free (Handle.annotated_commit commit),
            Event.REprintf "Performing fast forward\n",
            Event.call "git_checkout_tree" 0,
            Event.call "git_reference_set_target" rc] ++
           if rc = 0 then
             [Event.free (Handle.reference target), Event.free (Handle.reference head),
              Event.free (Handle.object revision)]
           else [] }) := by
  by_cases hrc : rc = 0
  · subst hrc
    simp [R_git_merge_fast_forward, M.bind_eq, M.bind, pure, M.pure, git_repository_head,
      git_revparse_single, git_annotated_commit_lookup, git_merge_analysis, git_checkout_tree,
      git_reference_set_target, git_annotated_commit_free, git_reference_free, git_object_free,
      acquire, release, record, REprintf, bail_if, GIT_CHECKOUT_OPTIONS_INIT,
      hhead, hrev, hcommit, hana, hup, hff, hco, hset]
  · simp [R_git_merge_fast_forward, M.bind_eq, M.bind, pure, M.pure, git_repository_head,
      git_revparse_single, git_annotated_commit_lookup, git_merge_analysis, git_checkout_tree,
      git_reference_set_target, git_annotated_commit_free, git_reference_free, git_object_free,
      acquire, release, record, REprintf, bail_if, GIT_CHECKOUT_OPTIONS_INIT,
      hhead, hrev, hcommit, hana, hup, hff, hco, hset, hrc]

/-- Witness of C3: in the example repository with analysis `fastforward`, merging
`feature` moves `main` and the working tree to the commit `0x20` of `feature`. -/
theorem fast_forward_advances_witness :
    R_git_merge_fast_forward (demo GIT_MERGE_ANALYSIS_FASTFORWARD 0) 7 "feature" s0 =
      (Except.ok 7,
       { repo := { refs := { raw := 32 }, worktree := { raw := 32 } },
         live := [],
         trace :=
           [Event.call "git_repository_head" 0, Event.call "git_revparse_single" 0,
            Event.call "git_annotated_commit_lookup" 0, Event.call "git_merge_analysis" 0,
            Event.free (Handle.annotated_commit { addr := 33 }),
            Event.REprintf "Performing fast forward\n",
            Event.call "git_checkout_tree" 0,
            Event.call "git_reference_set_target" 0,
            Event.free (Handle.reference { addr := 4 }),
            Event.free (Handle.reference { addr := 1 }),
            Event.free (Handle.object { addr := 2 })] }) :=
  fast_forward_advances (demo GIT_MERGE_ANALYSIS_FASTFORWARD 0) 7 "feature" s0
    { addr := 1 } { addr := 4 } { addr := 2 } { addr := 33 } GIT_MERGE_ANALYSIS_FASTFORWARD 0
    { raw := 32 } { raw := 32 } 0 rfl rfl rfl rfl (by decide) (by decide) rfl rfl

/-- C4: when the checkout fails, the run ends with the R error of `git_checkout_tree`
carrying the checkout's status; the trace ends with the checkout, so no
reference update was asked for, and the reference store is the one from before
the call. -/
theorem fast_forward_checkout_failure (L : Libgit2 Refs Tree) (ptr : SEXP) (ref : String)
    (s : State Refs Tree) (head : git_reference) (revision : git_object)
    (commit : git_annotated_commit) (analysis : git_merge_analysis_t)
    (preference : git_merge_preference_t) (tree : Tree) (rc : Int)
    (hhead : L.git_repository_head s.repo = (0, head))
    (hrev : L.git_revparse_single s.repo ref = (0, revision))
    (hcommit : L.git_annotated_commit_lookup s.repo (L.git_object_id revision) = (0, commit))
    (hana : L.git_merge_analysis s.repo [commit] = (0, analysis, preference))
    (hff : analysis &&& GIT_MERGE_ANALYSIS_FASTFORWARD ≠ 0
      ∨ analysis &&& GIT_MERGE_ANALYSIS_UNBORN ≠ 0)
    (hup : analysis &&& GIT_MERGE_ANALYSIS_UP_TO_DATE = 0)
    (hco : L.git_checkout_tree s.repo revision { checkout_strategy := GIT_CHECKOUT_SAFE }
      = (rc, tree))
    (hrc : rc ≠ 0) :
    (R_git_merge_fast_forward L ptr ref s).1
      = Except.error { what := "git_checkout_tree", code := rc } ∧
    (R_git_merge_fast_forward L ptr ref s).2.repo.refs = s.repo.refs ∧
    (R_git_merge_fast_forward L ptr ref s).2.trace = s.trace ++
      [Event.call "git_repository_head" 0, Event.call "git_revparse_single" 0,
       Event.call "git_annotated_commit_lookup" 0, Event.call "git_merge_analysis" 0,
       Event.free (Handle.annotated_commit commit),
       Event.REprintf "Performing fast forward\n",
       Event.call "git_checkout_tree" rc] := by
  simp [R_git_merge_fast_forward, M.bind_eq, M.bind, pure, M.pure, git_repository_head,
    git_revparse_single, git_annotated_commit_lookup, git_merge_analysis, git_checkout_tree,
    git_annotated_commit_free, acquire, release, record, REprintf, bail_if,
    GIT_CHECKOUT_OPTIONS_INIT, hhead, hrev, hcommit, hana, hup, hff, hco, hrc]

/-- Witness of C4: in the example repository with a checkout that fails with status
`-13`, merging `feature` raises the checkout's error and `main` still points at
the commit `0x30`. -/
theorem fast_forward_checkout_failure_witness :
    (R_git_merge_fast_forward (demo GIT_MERGE_ANALYSIS_FASTFORWARD (-13)) 7 "feature" s0).1
      = Except.error { what := "git_checkout_tree", code := -13 } ∧
    (R_git_merge_fast_forward (demo GIT_MERGE_ANALYSIS_FASTFORWARD (-13)) 7 "feature" s0).2.repo.refs
      = { raw := 48 } ∧
    (R_git_merge_fast_forward (demo GIT_MERGE_ANALYSIS_FASTFORWARD (-13)) 7 "feature" s0).2.trace =
      [Event.call "git_repository_head" 0, Event.call "git_revparse_single" 0,
       Event.call "git_annotated_commit_lookup" 0, Event.call "git_merge_analysis" 0,
       Event.free (Handle.annotated_commit { addr := 33 }),
       Event.REprintf "Performing fast forward\n",
       Event.call "git_checkout_tree" (-13)] :=
  fast_forward_checkout_failure (demo GIT_MERGE_ANALYSIS_FASTFORWARD (-13)) 7 "feature" s0
    { addr := 1 } { addr := 2 } { addr := 33 } GIT_MERGE_ANALYSIS_FASTFORWARD 0
    { raw := 48 } (-13) rfl rfl rfl rfl (by decide) (by decide) rfl (by decide)

/-- C5: when head, the revision, its annotated commit and the analysis succeed and the
analysis has the up-to-date flag, or has neither the fastforward nor the unborn
flag, the run returns `ptr` without error, leaves the repository as it was,
releases every handle, and its trace has no checkout, no reference update and
exactly one message: "Already up-to-date" in the first case, "Fast forward not
possible" in the second. -/
theorem fast_forward_no_op (L : Libgit2 Refs Tree) (ptr : SEXP) (ref : String)
    (s : State Refs Tree) (head : git_reference) (revision : git_object)
    (commit : git_annotated_commit) (analysis : git_merge_analysis_t)
    (preference : git_merge_preference_t)
    (hhead : L.git_repository_head s.repo = (0, head))
    (hrev : L.git_revparse_single s.repo ref = (0, revision))
    (hcommit : L.git_annotated_commit_lookup s.repo (L.git_object_id revision) = (0, commit))
    (hana : L.git_merge_analysis s.repo [commit] = (0, analysis, preference))
    (hflags : analysis &&& GIT_MERGE_ANALYSIS_UP_TO_DATE ≠ 0
      ∨ (analysis &&& GIT_MERGE_ANALYSIS_FASTFORWARD = 0
          ∧ analysis &&& GIT_MERGE_ANALYSIS_UNBORN = 0)) :
    R_git_merge_fast_forward L ptr ref s =
      (Except.ok ptr,
       { repo := s.repo,
         live := s.live,
         trace := s.trace ++
           [Event.call "git_repository_head" 0, Event.call "git_revparse_single" 0,
            Event.call "git_annotated_commit_lookup" 0, Event.call "git_merge_analysis" 0,
            Event.free (Handle.annotated_commit commit),
            Event.REprintf
              (if analysis &&& GIT_MERGE_ANALYSIS_UP_TO_DATE ≠ 0 then "Already up-to-date\n"
               else "Fast forward not possible\n"),
            Event.free (Handle.reference head), Event.free (Handle.object revision)] }) := by
  by_cases hup : analysis &&& GIT_MERGE_ANALYSIS_UP_TO_DATE = 0
  · have hno : analysis &&& GIT_MERGE_ANALYSIS_FASTFORWARD = 0
        ∧ analysis &&& GIT_MERGE_ANALYSIS_UNBORN = 0 := by
      rcases hflags with h | h
      · exact absurd hup h
      · exact h
    simp [R_git_merge_fast_forward, M.bind_eq, M.bind, pure, M.pure, git_repository_head,
      git_revparse_single, git_annotated_commit_lookup, git_merge_analysis,
      git_annotated_commit_free, git_reference_free, git_object_free, acquire, release, record,
      REprintf, bail_if, hhead, hrev, hcommit, hana, hup, hno.1, hno.2]
  · simp [R_git_merge_fast_forward, M.bind_eq, M.bind, pure, M.pure, git_repository_head,
      git_revparse_single, git_annotated_commit_lookup, git_merge_analysis,
      git_annotated_commit_free, git_reference_free, git_object_free, acquire, release, record,
      REprintf, bail_if, hhead, hrev, hcommit, hana, hup]

/-- Witness of C5: in the example repository with analysis `normal`, merging `feature`
changes nothing and prints "Fast forward not possible". -/
theorem fast_forward_no_op_witness :
    R_git_merge_fast_forward (demo GIT_MERGE_ANALYSIS_NORMAL 0) 7 "feature" s0 =
      (Except.ok 7,
       { repo := { refs := { raw := 48 }, worktree := { raw := 48 } },
         live := [],
         trace :=
           [Event.call "git_repository_head" 0, Event.call "git_revparse_single" 0,
            Event.call "git_annotated_commit_lookup" 0, Event.call "git_merge_analysis" 0,
            Event.free (Handle.annotated_commit { addr := 33 }),
            Event.REprintf "Fast forward not possible\n",
            Event.free (Handle.reference { addr := 1 }),
            Event.free (Handle.object { addr := 2 })] }) :=
  fast_forward_no_op (demo GIT_MERGE_ANALYSIS_NORMAL 0) 7 "feature" s0
    { addr := 1 } { addr := 2 } { addr := 33 } GIT_MERGE_ANALYSIS_NORMAL 0
    rfl rfl rfl rfl (by decide)

end FastForward

/-! ## `R_git_merge_base` -/

section MergeBase

variable {Refs Tree : Type}

/-- C8: `R_git_merge_base` raises an R error when `ref1` does not resolve, when `ref2`
does not resolve, and when `git_merge_base` on the two resolved identifiers, in
that order, returns a non-zero status -- in particular `GIT_ENOTFOUND`, its
report that there is no common ancestor, after which no string at all is returned.
When the three calls succeed the result is `git_oid_tostr_s` of the identifier
`git_merge_base` produced. -/
theorem merge_base_result (L : Libgit2 Refs Tree) (ptr : SEXP) (ref1 ref2 : String)
    (s : State Refs Tree)
    (e1 e2 e3 : Int) (t1 t2 : git_object) (base : git_oid)
    (h1 : L.git_revparse_single s.repo ref1 = (e1, t1))
    (h2 : L.git_revparse_single s.repo ref2 = (e2, t2))
    (h3 : L.git_merge_base s.repo (L.git_object_id t1) (L.git_object_id t2) = (e3, base)) :
    (e1 ≠ 0 → (R_git_merge_base L ptr ref1 ref2 s).1
      = Except.error { what := "git_revparse_single", code := e1 }) ∧
    (e1 = 0 → e2 ≠ 0 → (R_git_merge_base L ptr ref1 ref2 s).1
      = Except.error { what := "git_revparse_single", code := e2 }) ∧
    (e1 = 0 → e2 = 0 → e3 ≠ 0 → (R_git_merge_base L ptr ref1 ref2 s).1
      = Except.error { what := "git_merge_base", code := e3 }) ∧
    (e1 = 0 → e2 = 0 → e3 = GIT_ENOTFOUND →
      ∀ str : String, (R_git_merge_base L ptr ref1 ref2 s).1 ≠ Except.ok str) ∧
    (e1 = 0 → e2 = 0 → e3 = 0 →
      (R_git_merge_base L ptr ref1 ref2 s).1 = Except.ok (L.git_oid_tostr_s base)) := by
  refine ⟨?_, ?_, ?_, ?_, ?_⟩
  · intro n1
    simp [R_git_merge_base, M.bind_eq, M.bind, M.pure, git_revparse_single, acquire, bail_if,
      h1, n1]
  · intro z1 n2
    subst z1
    simp [R_git_merge_base, M.bind_eq, M.bind, M.pure, git_revparse_single, acquire, bail_if,
      h1, h2, n2]
  · intro z1 z2 n3
    subst z1 z2
    simp [R_git_merge_base, M.bind_eq, M.bind, M.pure, git_revparse_single, git_merge_base,
      acquire, record, bail_if, h1, h2, h3, n3]
  · intro z1 z2 z3 str
    subst z1 z2 z3
    simp [R_git_merge_base, M.bind_eq, M.bind, M.pure, git_revparse_single, git_merge_base,
      acquire, record, bail_if, h1, h2, h3, GIT_ENOTFOUND]
  · intro z1 z2 z3
    subst z1 z2 z3
    simp [R_git_merge_base, M.bind_eq, M.bind, pure, M.pure, git_revparse_single,
      git_merge_base, git_object_free, acquire, release, record, bail_if, h1, h2, h3]

/-- Witness of C8: in the example repository `feature` and `main` have no common
ancestor and `R_git_merge_base` raises the error of `git_merge_base`; the merge
base of `feature` with itself is its own commit `0x20`, returned as forty
hexadecimal digits. -/
theorem merge_base_result_witness :
    (R_git_merge_base (demo GIT_MERGE_ANALYSIS_NORMAL 0) 7 "feature" "main" s0).1
      = Except.error { what := "git_merge_base", code := -3 } ∧
    (R_git_merge_base (demo GIT_MERGE_ANALYSIS_NORMAL 0) 7 "feature" "feature" s0).1
      = Except.ok "0000000000000000000000000000000000000020" :=
  ⟨(merge_base_result (demo GIT_MERGE_ANALYSIS_NORMAL 0) 7 "feature" "main" s0 0 0 (-3)
      { addr := 2 } { addr := 3 } { raw := 0 } rfl rfl rfl).2.2.1 rfl rfl (by decide),
   (merge_base_result (demo GIT_MERGE_ANALYSIS_NORMAL 0) 7 "feature" "feature" s0 0 0 0
      { addr := 2 } { addr := 2 } { raw := 32 } rfl rfl rfl).2.2.2.2 rfl rfl rfl⟩

end MergeBase

/-! ## `R_git_merge_analysis` -/

section MergeAnalysis

variable {Refs Tree : Type}

/-- C6, as the code has it: when the lookup of the target reference fails, the run
raises the R error of `git_reference_lookup` with the lookup's status; no
candidate is resolved, the analyzer is not called and no token is returned. -/
theorem merge_analysis_target_lookup_failure (L : Libgit2 Refs Tree) (ptr : SEXP)
    (refs : List String) (target : String) (s : State Refs Tree) (rc : Int) (t : git_reference)
    (hlookup : L.git_reference_lookup s.repo target = (rc, t))
    (hrc : rc ≠ 0) :
    R_git_merge_analysis L ptr refs target s =
      (Except.error { what := "git_reference_lookup", code := rc },
       { repo := s.repo, live := s.live,
         trace := s.trace ++ [Event.call "git_reference_lookup" rc] }) := by
  simp [R_git_merge_analysis, M.bind_eq, M.bind, M.pure, git_reference_lookup, acquire, bail_if,
    hlookup, hrc]

/-- Witness of C6, as the code has it: the example repository has no reference
`refs/heads/topic`. -/
theorem merge_analysis_target_lookup_failure_witness :
    R_git_merge_analysis (demo GIT_MERGE_ANALYSIS_UNBORN 0) 7 ["feature"] "refs/heads/topic" s0 =
      (Except.error { what := "git_reference_lookup", code := -3 },
       { repo := { refs := { raw := 48 }, worktree := { raw := 48 } }, live := [],
         trace := [Event.call "git_reference_lookup" (-3)] }) :=
  merge_analysis_target_lookup_failure (demo GIT_MERGE_ANALYSIS_UNBORN 0) 7 ["feature"]
    "refs/heads/topic" s0 (-3) { addr := 0 } rfl (by decide)

/-- C6 as stated fails: the reference `refs/heads/topic` does not exist in the
example repository, the candidate `feature` resolves, and the call raises an
error instead of returning `"unborn"`. -/
theorem merge_analysis_missing_target_not_unborn :
    (demo GIT_MERGE_ANALYSIS_UNBORN 0).git_reference_lookup s0.repo "refs/heads/topic"
      = (GIT_ENOTFOUND, { addr := 0 }) ∧
    ((demo GIT_MERGE_ANALYSIS_UNBORN 0).git_annotated_commit_from_revspec s0.repo "feature").1
      = 0 ∧
    (R_git_merge_analysis (demo GIT_MERGE_ANALYSIS_UNBORN 0) 7 ["feature"] "refs/heads/topic" s0).1
      ≠ Except.ok "unborn" := by
  refine ⟨rfl, rfl, fun h => ?_⟩
  have herr : (R_git_merge_analysis (demo GIT_MERGE_ANALYSIS_UNBORN 0) 7 ["feature"]
      "refs/heads/topic" s0).1
      = Except.error { what := "git_reference_lookup", code := -3 } := rfl
  rw [herr] at h
  cases h

/-- C7 fails on the code: an analysis of `feature` against the existing reference
`refs/heads/main` returns normally with the token `"normal"`, and the handle of the
reference that `git_reference_lookup` handed out is still live: nothing in
`R_git_merge_analysis` frees it.  On error paths handles stay live as well: the
head reference when the revision of a fast-forward does not resolve, the first
object when the second revision of a merge base does not resolve. -/
theorem merge_analysis_leaks_target_reference :
    (R_git_merge_analysis (demo GIT_MERGE_ANALYSIS_NORMAL 0) 7 ["feature"] "refs/heads/main" s0).1
      = Except.ok "normal" ∧
    (R_git_merge_analysis (demo GIT_MERGE_ANALYSIS_NORMAL 0) 7 ["feature"] "refs/heads/main" s0).2.live
      = [Handle.reference { addr := 5 }] ∧
    (R_git_merge_analysis (demo GIT_MERGE_ANALYSIS_NORMAL 0) 7 ["feature"] "refs/heads/main" s0).2.trace
      = [Event.call "git_reference_lookup" 0,
         Event.call "git_annotated_commit_from_revspec" 0,
         Event.call "git_merge_analysis_for_ref" 0,
         Event.free (Handle.annotated_commit { addr := 6 })] ∧
    R_git_merge_fast_forward (demo GIT_MERGE_ANALYSIS_FASTFORWARD 0) 7 "topic" s0
      = (Except.error { what := "git_revparse_single", code := -3 },
         { repo := s0.repo, live := [Handle.reference { addr := 1 }],
           trace := [Event.call "git_repository_head" 0,
                     Event.call "git_revparse_single" (-3)] }) ∧
    R_git_merge_base (demo GIT_MERGE_ANALYSIS_NORMAL 0) 7 "feature" "topic" s0
      = (Except.error { what := "git_revparse_single", code := -3 },
         { repo := s0.repo, live := [Handle.object { addr := 2 }],
           trace := [Event.call "git_revparse_single" 0,
                     Event.call "git_revparse_single" (-3)] }) :=
  ⟨rfl, rfl, rfl, rfl, rfl⟩

/-- C10: with an existing target reference and a candidate list whose specifiers all
resolve, the trace of the run is: the lookup of the target, one resolution per
candidate, the analyzer call, then one free for each annotated commit created,
in order.  The state reached is the same whether the analyzer succeeded (a token
is returned) or failed (its error is raised): the frees come before the status
is looked at, and no annotated commit is live afterwards. -/
theorem merge_analysis_frees_commits (L : Libgit2 Refs Tree) (ptr : SEXP)
    (refs : List String) (target : String) (s : State Refs Tree) (t : git_reference) (rc : Int)
    (analysis : git_merge_analysis_t) (preference : git_merge_preference_t)
    (hlookup : L.git_reference_lookup s.repo target = (0, t))
    (hall : ∀ r ∈ refs, (L.git_annotated_commit_from_revspec s.repo r).1 = 0)
    (hana : L.git_merge_analysis_for_ref s.repo t
      (refs.map fun r => (L.git_annotated_commit_from_revspec s.repo r).2)
      = (rc, analysis, preference)) :
    R_git_merge_analysis L ptr refs target s =
      (if rc ≠ 0 then Except.error { what := "git_merge_analysis", code := rc }
        else Except.ok (analysis_to_str analysis),
       { repo := s.repo, live := Handle.reference t :: s.live,
         trace := s.trace ++ [Event.call "git_reference_lookup" 0] ++
           (refs.map fun _ => Event.call "git_annotated_commit_from_revspec" 0) ++
           [Event.call "git_merge_analysis_for_ref" rc] ++
           (refs.map fun r => Event.free
             (Handle.annotated_commit (L.git_annotated_commit_from_revspec s.repo r).2)) }) := by
  have hlive : (refs.map fun r => (L.git_annotated_commit_from_revspec s.repo r).2).foldl
      (fun acc c => acc.erase (Handle.annotated_commit c))
      ((refs.map fun r =>
          Handle.annotated_commit (L.git_annotated_commit_from_revspec s.repo r).2).reverse
        ++ Handle.reference t :: s.live) = Handle.reference t :: s.live := by
    apply foldl_erase_front
    rw [List.map_map]
    exact List.reverse_perm _
  by_cases hrc : rc = 0
  · subst hrc
    simp [R_git_merge_analysis, M.bind_eq, M.bind, pure, M.pure, git_reference_lookup,
      git_merge_analysis_for_ref, acquire, record, bail_if, hlookup]
    rw [lookup_commits_run L refs [] _ (by simpa using hall)]
    simp [hana, free_commits_run, hlive, Function.comp_def]
  · simp [R_git_merge_analysis, M.bind_eq, M.bind, pure, M.pure, git_reference_lookup,
      git_merge_analysis_for_ref, acquire, record, bail_if, hlookup]
    rw [lookup_commits_run L refs [] _ (by simpa using hall)]
    simp [hana, free_commits_run, hlive, hrc, Function.comp_def]

/-- Witness of C10: two candidates against `refs/heads/main`, with an analyzer that
takes any number of candidates: both annotated commits are freed, once each. -/
theorem merge_analysis_frees_commits_witness :
    R_git_merge_analysis (demo_any_count GIT_MERGE_ANALYSIS_NORMAL) 7 ["feature", "main"]
        "refs/heads/main" s0 =
      (Except.ok "normal",
       { repo := { refs := { raw := 48 }, worktree := { raw := 48 } },
         live := [Handle.reference { addr := 5 }],
         trace :=
           [Event.call "git_reference_lookup" 0,
            Event.call "git_annotated_commit_from_revspec" 0,
            Event.call "git_annotated_commit_from_revspec" 0,
            Event.call "git_merge_analysis_for_ref" 0,
            Event.free (Handle.annotated_commit { addr := 6 }),
            Event.free (Handle.annotated_commit { addr := 7 })] }) :=
  merge_analysis_frees_commits (demo_any_count GIT_MERGE_ANALYSIS_NORMAL) 7 ["feature", "main"]
    "refs/heads/main" s0 { addr := 5 } 0 GIT_MERGE_ANALYSIS_NORMAL 0 rfl (by decide) rfl

end MergeAnalysis

end Gert
